import Mathlib

/-!
Verification of the study-timer core of `study.py`.

The file shallowly embeds the session-stop handler (`handle_parar_estudo`),
the elapsed-time computation used by the running clock display
(`display_cronometro`), the duration formatter (`formatar_duracao`), the
per-subject aggregation (`atualizar_resumo` plus the descending sort applied
by `display_resumo_materias`), the weekday chart data (`gerar_grafico_semanal`)
and the statistics of `display_analise_padroes`.

Modelling conventions:
* `datetime` values are rational numbers of seconds since the Unix epoch;
  `timedelta.total_seconds()` is plain subtraction.
* a spreadsheet cell that went through `pd.to_numeric(errors='coerce')` is an
  `Option ℚ` (`none` models `NaN`); a cell that went through
  `pd.to_datetime(errors='coerce', dayfirst=True)` is an `Option ℤ` holding the
  parsed calendar date as a day number (`none` models `NaT`).
* Python `round(x, 2)` is decimal round-half-to-even on ℚ.
* pandas `groupby` (with its default `sort=True`) enumerates group keys in
  ascending order, summing with `skipna=True` so a `NaN` contributes zero;
  `sort_values` with its default `kind='quicksort'` is not stable, so it
  guarantees only some permutation ordered by the sort column: where the sort
  keys can tie (`display_resumo_materias`) the displayed order is modelled
  relationally (`OrdenacaoExibida`), and where they cannot (the distinct
  `Ordem` indices in `gerar_grafico_semanal`) every sort yields the same
  list and `mergeSort` is used.
* spreadsheet effects (`append_row`, `clear`, `update`) are modelled by a
  boolean success flag and by fields of the result recording which mutations
  happened; Python handlers return `None`, recorded in the `retornado` field.
-/

/-- Python `int()` on a rational: truncation toward zero. -/
def pyInt (x : ℚ) : ℤ := if 0 ≤ x then ⌊x⌋ else -⌊-x⌋

/-- Python `f"{n:02d}"`: decimal rendering zero-padded to at least two
characters. -/
def pad2 (n : ℤ) : String := if 0 ≤ n ∧ n ≤ 9 then "0" ++ toString n else toString n

/-- Python `f"{n:04d}"` as produced by `strftime("%Y")`: decimal rendering
zero-padded to at least four characters. -/
def pad4 (n : ℤ) : String :=
  if 0 ≤ n ∧ n ≤ 9 then "000" ++ toString n
  else if 0 ≤ n ∧ n ≤ 99 then "00" ++ toString n
  else if 0 ≤ n ∧ n ≤ 999 then "0" ++ toString n
  else toString n

/-- Gregorian civil date (year, month, day) of an epoch day number,
the standard `civil_from_days` algorithm; backs `strftime("%d/%m/%Y")`. -/
def civilFromDays (z0 : ℤ) : ℤ × ℤ × ℤ :=
  let z := z0 + 719468
  let era := (if 0 ≤ z then z else z - 146096) / 146097
  let doe := z - era * 146097
  let yoe := (doe - doe / 1460 + doe / 36524 - doe / 146096) / 365
  let y := yoe + era * 400
  let doy := doe - (365 * yoe + yoe / 4 - yoe / 100)
  let mp := (5 * doy + 2) / 153
  let d := doy - (153 * mp + 2) / 5 + 1
  let m := mp + (if mp < 10 then 3 else -9)
  (y + (if m ≤ 2 then 1 else 0), m, d)

/-- Second-of-day of a timestamp (UTC), used by the `strftime` time formats. -/
def secOfDay (ts : ℚ) : ℤ := ⌊ts⌋ % 86400

/-- Python `dt.strftime("%H:%M")` for a timestamp. -/
def strftimeHM (ts : ℚ) : String :=
  pad2 (secOfDay ts / 3600) ++ ":" ++ pad2 (secOfDay ts % 3600 / 60)

/-- Python `dt.strftime("%d/%m/%Y")` for a timestamp. -/
def strftimeDMY (ts : ℚ) : String :=
  let ymd := civilFromDays (⌊ts⌋ / 86400)
  pad2 ymd.2.2 ++ "/" ++ pad2 ymd.2.1 ++ "/" ++ pad4 ymd.1

/-- `formatar_duracao` (study.py:115-119): converts seconds to `HH:MM:SS` via
two `divmod`s and `int()` truncation of each component. -/
def formatar_duracao (segundos : ℚ) : String :=
  let horas := ⌊segundos / 3600⌋
  let resto := segundos - 3600 * (horas : ℚ)
  let minutos := ⌊resto / 60⌋
  let segundos2 := resto - 60 * (minutos : ℚ)
  pad2 horas ++ ":" ++ pad2 minutos ++ ":" ++ pad2 (pyInt segundos2)

/-- `DURACAO_MINIMA_SEGUNDOS` (study.py:21): minimum duration, in seconds,
for a stop to be recorded. -/
def DURACAO_MINIMA_SEGUNDOS : ℚ := 10

/-- The elapsed-time computation shared by `display_cronometro` (study.py:314)
and `handle_parar_estudo` (study.py:269):
`(now - st.session_state.inicio_estudo).total_seconds()`. -/
def tempo_decorrido (inicio_estudo agora : ℚ) : ℚ := agora - inicio_estudo

/-- Round a rational to the nearest integer, ties to even — the rounding mode
of Python's built-in `round`. -/
def roundHalfEven (x : ℚ) : ℤ :=
  let f := ⌊x⌋
  let r := x - (f : ℚ)
  if r < 1 / 2 then f
  else if 1 / 2 < r then f + 1
  else if f % 2 = 0 then f else f + 1

/-- Python `round(x, 2)`: round to two decimal places, ties to even. -/
def round2 (x : ℚ) : ℚ := (roundHalfEven (100 * x) : ℚ) / 100

/-- The `st.session_state` fields owned by the timer (study.py:26-31).
The cache bookkeeping fields are omitted: no claim mentions them. -/
structure EstadoSessao where
  estudo_ativo : Bool
  inicio_estudo : ℚ
  materia_atual : String
  ultimo_registro : Option (String × ℚ × String × String)
deriving DecidableEq

/-- The row appended to the `Registros` sheet by `handle_parar_estudo`
(study.py:278-284): formatted date, start and end times, duration in minutes,
subject. -/
structure NovoRegistro where
  data_fmt : String
  comeco_fmt : String
  fim_fmt : String
  duracao : ℚ
  materia : String
deriving DecidableEq

/-- The three exits of `handle_parar_estudo`: rejected as too short, saved,
or append failed. -/
inductive StopOutcome where
  | rejectedTooShort
  | saved
  | saveFailed
deriving DecidableEq

/-- Observable outcome of one call to `handle_parar_estudo`: the branch taken,
the final session state, the record built (if any), the row actually appended
to the store (if any), whether the `Resumo` sheet was recomputed, the messages
emitted, and the value returned to the caller (Python returns `None` on every
path). -/
structure StopResult where
  outcome : StopOutcome
  estadoFinal : EstadoSessao
  registro : Option NovoRegistro
  appended : Option NovoRegistro
  resumoAtualizado : Bool
  aviso : Option String
  erro : Option String
  retornado : Option NovoRegistro
deriving DecidableEq

/-- `handle_parar_estudo` (study.py:266-305). `fim_estudo` is `datetime.now()`
at the moment of the call; `appendOk` tells whether `append_row` on the
`Registros` sheet succeeds or raises. -/
def handle_parar_estudo (s : EstadoSessao) (fim_estudo : ℚ) (appendOk : Bool) :
    StopResult :=
  let duracao_segundos := fim_estudo - s.inicio_estudo
  if duracao_segundos < DURACAO_MINIMA_SEGUNDOS then
    { outcome := .rejectedTooShort
      estadoFinal := { s with estudo_ativo := false }
      registro := none
      appended := none
      resumoAtualizado := false
      aviso := some "Tempo mínimo não atingido. Registro não salvo."
      erro := none
      retornado := none }
  else
    let duracao_minutos := round2 (duracao_segundos / 60)
    let novo_registro : NovoRegistro :=
      { data_fmt := strftimeDMY s.inicio_estudo
        comeco_fmt := strftimeHM s.inicio_estudo
        fim_fmt := strftimeHM fim_estudo
        duracao := duracao_minutos
        materia := s.materia_atual }
    if appendOk then
      { outcome := .saved
        estadoFinal :=
          { s with
            estudo_ativo := false
            ultimo_registro :=
              some (s.materia_atual, duracao_minutos,
                strftimeHM s.inicio_estudo, strftimeHM fim_estudo) }
        registro := some novo_registro
        appended := some novo_registro
        resumoAtualizado := true
        aviso := none
        erro := none
        retornado := none }
    else
      { outcome := .saveFailed
        estadoFinal := { s with estudo_ativo := false }
        registro := some novo_registro
        appended := none
        resumoAtualizado := false
        aviso := none
        erro := some "Erro ao salvar registro"
        retornado := none }

/-- One row read back from the `Registros` sheet, with the two derived columns
the aggregation code builds: `dataDia` is the `Data` cell after
`pd.to_datetime(errors='coerce', dayfirst=True)` (`none` = `NaT`, `some d` =
midnight of epoch day `d`), `duracao` is the `Duração (min)` cell after
`pd.to_numeric(errors='coerce')` (`none` = `NaN`), `materia` the `Matéria`
cell. -/
structure Registro where
  dataDia : Option ℤ
  duracao : Option ℚ
  materia : String
deriving DecidableEq

/-- One row of the per-subject summary `atualizar_resumo` builds:
subject, total minutes, total hours. -/
structure Resumo where
  materia : String
  minutos : ℚ
  horas : ℚ
deriving DecidableEq

/-- Sum of a `Duração (min)` column as pandas `.sum()` computes it:
`skipna=True`, so a `NaN` (`none`) contributes zero. -/
def somaDuracao (l : List Registro) : ℚ :=
  (l.map fun r => r.duracao.getD 0).sum

/-- The aggregation core of `atualizar_resumo` (study.py:172-174):
`groupby('Matéria')['Duração (min)'].sum()` with the default `sort=True`
(group keys in ascending order), then `Total (horas) = (min / 60).round(2)`.
Grouping is exact, case-sensitive string equality. -/
def resumo_totais (registros : List Registro) : List Resumo :=
  let chaves := ((registros.map fun r => r.materia).dedup).mergeSort
    fun a b => decide (a ≤ b)
  chaves.map fun k =>
    let total := somaDuracao (registros.filter fun r => decide (r.materia = k))
    { materia := k, minutos := total, horas := round2 (total / 60) }

/-- `atualizar_resumo` (study.py:161-187) as seen by its caller: on an empty
record set it clears the `Resumo` sheet and returns an empty frame; otherwise
it computes `resumo_totais` and writes it; if the clear/update of the sheet
raises, it returns an empty frame. The boolean result records whether the
`Resumo` sheet now holds the new table. -/
def atualizar_resumo (registros : List Registro) (updateOk : Bool) :
    List Resumo × Bool :=
  if registros.isEmpty then ([], false)
  else if updateOk then (resumo_totais registros, true)
  else ([], false)

/-- The table shown by `display_resumo_materias` (study.py:378): the summary
written by `atualizar_resumo`, re-sorted by
`sort_values('Duração (min)', ascending=False)`. The default
`kind='quicksort'` is not stable, so the program guarantees only that the
displayed table is some permutation of the summary that is descending in
minutes; the relative order of rows with equal minutes is unspecified. This
relation holds of exactly the tables the display can show. -/
def OrdenacaoExibida (registros : List Registro) (exibido : List Resumo) : Prop :=
  exibido.Perm (resumo_totais registros) ∧
  exibido.Pairwise fun a b => b.minutos ≤ a.minutos

/-- One bar of the weekly chart of `gerar_grafico_semanal`: weekday name,
total minutes, hours (`Horas = min / 60`, not rounded). -/
structure LinhaSemana where
  dia : String
  minutos : ℚ
  horas : ℚ
deriving DecidableEq

/-- `ordem_dias_portugues` (study.py:229): Monday-first weekday names, the
image of `mapeamento_dias` applied to `dt.day_name()`. -/
def ordem_dias_portugues : List String :=
  ["Segunda", "Terça", "Quarta", "Quinta", "Sexta", "Sábado", "Domingo"]

/-- Portuguese weekday name of an epoch day number (epoch day 0, 1970-01-01,
was a Thursday, Monday-first index 3): the composite of `dt.day_name()` and
`mapeamento_dias` (study.py:218-228). -/
def nomeDiaSemana (z : ℤ) : String :=
  ordem_dias_portugues.getD ((z + 3) % 7).toNat ""

/-- `ordem_dias_portugues.index(dia)` (study.py:234). -/
def ordemDia (dia : String) : ℕ := ordem_dias_portugues.indexOf dia

/-- The window filter of `gerar_grafico_semanal` (study.py:212-213):
`df_registros[df_registros['Data'] >= datetime.now() - timedelta(days=30)]`.
A `NaT` date compares `False`, so such rows are dropped. -/
def registros_recentes (registros : List Registro) (agora : ℚ) : List Registro :=
  registros.filter fun r =>
    match r.dataDia with
    | some d => decide (agora - 30 * 86400 ≤ (d * 86400 : ℚ))
    | none => false

/-- `gerar_grafico_semanal` (study.py:206-245), up to the chart data it plots:
`None` when the input frame is empty or no row survives the 30-day window;
otherwise one row per weekday actually present (`groupby('Dia Semana')` with
ascending keys, summing with `skipna=True`), `Horas = min / 60`, finally
re-sorted Monday-first by the `Ordem` column. Weekdays with no matching
records produce no row. -/
def gerar_grafico_semanal (registros : List Registro) (agora : ℚ) :
    Option (List LinhaSemana) :=
  if registros.isEmpty then none
  else
    let recentes := registros_recentes registros agora
    if recentes.isEmpty then none
    else
      let chaves := ((recentes.map fun r =>
        nomeDiaSemana (r.dataDia.getD 0)).dedup).mergeSort fun a b => decide (a ≤ b)
      let agrupado := chaves.map fun k =>
        let total := somaDuracao (recentes.filter fun r =>
          decide (nomeDiaSemana (r.dataDia.getD 0) = k))
        { dia := k, minutos := total, horas := total / 60 : LinhaSemana }
      some (agrupado.mergeSort fun a b => decide (ordemDia a.dia ≤ ordemDia b.dia))

/-- The statistics block of `display_analise_padroes` (study.py:423-441). -/
structure Estatisticas where
  total_horas : ℚ
  total_sessoes : ℕ
  duracao_media : Option ℚ
  dias_unicos : ℕ
  frequencia : ℚ
deriving DecidableEq

/-- `df_registros['Data'].dt.date.nunique()` (study.py:440): number of
distinct parsed dates, `NaT` excluded. -/
def diasUnicos (registros : List Registro) : ℕ :=
  ((registros.filterMap fun r => r.dataDia).dedup).length

/-- The statistics of `display_analise_padroes` (study.py:423-441):
`total_horas = sum/60`, `total_sessoes = len(df)`, `duracao_media = mean()`
(pandas mean: sum of the non-`NaN` values over their count, `NaN` — here
`none` — when no value is valid) guarded by `if not df.empty else 0`, and
`frequencia = total_sessoes / dias_unicos if dias_unicos > 0 else 0`,
computed only inside `if total_sessoes > 0` (otherwise no sessions exist and
the frequency is 0). -/
def display_analise_stats (registros : List Registro) : Estatisticas :=
  let total_sessoes := registros.length
  let validos := registros.filterMap fun r => r.duracao
  let dias := diasUnicos registros
  { total_horas := somaDuracao registros / 60
    total_sessoes := total_sessoes
    duracao_media :=
      if registros.isEmpty then some 0
      else if validos.isEmpty then none
      else some (validos.sum / (validos.length : ℚ))
    dias_unicos := dias
    frequencia :=
      if 0 < total_sessoes then
        if 0 < dias then (total_sessoes : ℚ) / (dias : ℚ) else 0
      else 0 }

/-- C1: for every active session and every stop time, if the elapsed duration
is strictly below `DURACAO_MINIMA_SEGUNDOS` (10 s), `handle_parar_estudo`
takes the rejected-too-short exit, deactivates the session, builds no record,
appends nothing to the store, does not touch the `Resumo` sheet, and leaves
`ultimo_registro` unchanged. -/
theorem parar_estudo_too_short (s : EstadoSessao) (fim_estudo : ℚ)
    (appendOk : Bool) (hativo : s.estudo_ativo = true)
    (hcurto : fim_estudo - s.inicio_estudo < DURACAO_MINIMA_SEGUNDOS) :
    (handle_parar_estudo s fim_estudo appendOk).outcome = .rejectedTooShort ∧
    (handle_parar_estudo s fim_estudo appendOk).estadoFinal.estudo_ativo = false ∧
    (handle_parar_estudo s fim_estudo appendOk).registro = none ∧
    (handle_parar_estudo s fim_estudo appendOk).appended = none ∧
    (handle_parar_estudo s fim_estudo appendOk).resumoAtualizado = false ∧
    (handle_parar_estudo s fim_estudo appendOk).estadoFinal.ultimo_registro
      = s.ultimo_registro := by
  simp [handle_parar_estudo, hcurto]

/-- Witness for C1: the spec scenario — start at second 0, stop at second 5
(5 s elapsed, minimum 10 s): rejected, nothing appended. -/
theorem parar_estudo_too_short_witness :
    (handle_parar_estudo ⟨true, 0, "Law", none⟩ 5 true).outcome
      = .rejectedTooShort ∧
    (handle_parar_estudo ⟨true, 0, "Law", none⟩ 5 true).appended = none :=
  ⟨(parar_estudo_too_short ⟨true, 0, "Law", none⟩ 5 true rfl
      (by norm_num [DURACAO_MINIMA_SEGUNDOS])).1,
   (parar_estudo_too_short ⟨true, 0, "Law", none⟩ 5 true rfl
      (by norm_num [DURACAO_MINIMA_SEGUNDOS])).2.2.2.1⟩

/-- C3 counterexample: `tempo_decorrido` is not clamped at zero. With
`startedAt = 10` and `now = 5` it returns `-5`, a negative duration, not the
claimed clamped `0`; no warning path exists in the code. -/
theorem tempo_decorrido_negativo :
    tempo_decorrido 10 5 = -5 ∧ tempo_decorrido 10 5 < 0 := by
  constructor <;> norm_num [tempo_decorrido]

/-- C3 amended: `tempo_decorrido` is the pure difference `now - startedAt`,
and when `now < startedAt` the result is negative and propagated as-is —
there is no clamping to zero and no warning. -/
theorem tempo_decorrido_puro (inicio_estudo agora : ℚ) :
    tempo_decorrido inicio_estudo agora = agora - inicio_estudo ∧
    (agora < inicio_estudo → tempo_decorrido inicio_estudo agora < 0) :=
  ⟨rfl, fun h => by simpa [tempo_decorrido, sub_neg] using h⟩

/-- Witness for C3 (amended): at `startedAt = 10`, `now = 5` the inner
implication fires and the elapsed time is negative. -/
theorem tempo_decorrido_puro_witness :
    tempo_decorrido 10 5 = 5 - 10 ∧ tempo_decorrido 10 5 < 0 :=
  ⟨(tempo_decorrido_puro 10 5).1, (tempo_decorrido_puro 10 5).2 (by norm_num)⟩

/-- C5: for every active session stopped with elapsed duration at least the
minimum, `handle_parar_estudo` builds a record whose `duracao` is the elapsed
seconds divided by 60 and rounded to 2 decimal places, for the session's
subject, and deactivates the session — whether or not the append succeeds. -/
theorem parar_estudo_salva (s : EstadoSessao) (fim_estudo : ℚ)
    (appendOk : Bool) (hativo : s.estudo_ativo = true)
    (hlongo : DURACAO_MINIMA_SEGUNDOS ≤ fim_estudo - s.inicio_estudo) :
    ∃ r : NovoRegistro,
      (handle_parar_estudo s fim_estudo appendOk).registro = some r ∧
      r.duracao = round2 ((fim_estudo - s.inicio_estudo) / 60) ∧
      r.materia = s.materia_atual ∧
      (handle_parar_estudo s fim_estudo appendOk).estadoFinal.estudo_ativo
        = false := by
  have h : ¬ fim_estudo - s.inicio_estudo < DURACAO_MINIMA_SEGUNDOS :=
    not_lt.mpr hlongo
  cases appendOk <;> simp [handle_parar_estudo, h]

/-- Witness for C5: the spec scenario — start at second 0, stop at second 150
(150 s elapsed): a record is produced with `duracao = round2 (150 / 60)`. -/
theorem parar_estudo_salva_witness :
    ∃ r : NovoRegistro,
      (handle_parar_estudo ⟨true, 0, "Law", none⟩ 150 true).registro = some r ∧
      r.duracao = round2 (((150 : ℚ) - 0) / 60) ∧
      r.materia = (⟨true, 0, "Law", none⟩ : EstadoSessao).materia_atual ∧
      (handle_parar_estudo ⟨true, 0, "Law", none⟩ 150 true).estadoFinal.estudo_ativo
        = false :=
  parar_estudo_salva ⟨true, 0, "Law", none⟩ 150 true rfl
    (by norm_num [DURACAO_MINIMA_SEGUNDOS])

/-- C6 counterexample: when the append fails on a 150 s session, the handler
builds a record but returns `None` to its caller and does not retain the
record in `ultimo_registro`: the unsaved record is lost, not returned. -/
theorem parar_estudo_falha_nao_retorna :
    (handle_parar_estudo ⟨true, 0, "Law", none⟩ 150 false).registro.isSome
      = true ∧
    (handle_parar_estudo ⟨true, 0, "Law", none⟩ 150 false).retornado = none ∧
    (handle_parar_estudo ⟨true, 0, "Law", none⟩ 150 false).estadoFinal.ultimo_registro
      = none := by
  have h : ¬ (150 : ℚ) < DURACAO_MINIMA_SEGUNDOS := by
    norm_num [DURACAO_MINIMA_SEGUNDOS]
  simp [handle_parar_estudo, h]

/-- C6 amended: if the store append fails during a stop of sufficient length,
the session is still deactivated locally and the `Resumo` sheet is untouched,
but the unsaved record is not returned to the caller (the handler returns
`None`) and is not retained; only an error message is emitted. -/
theorem parar_estudo_falha_desativa (s : EstadoSessao) (fim_estudo : ℚ)
    (hlongo : DURACAO_MINIMA_SEGUNDOS ≤ fim_estudo - s.inicio_estudo) :
    (handle_parar_estudo s fim_estudo false).estadoFinal.estudo_ativo = false ∧
    (handle_parar_estudo s fim_estudo false).retornado = none ∧
    (handle_parar_estudo s fim_estudo false).appended = none ∧
    (handle_parar_estudo s fim_estudo false).resumoAtualizado = false ∧
    (handle_parar_estudo s fim_estudo false).erro.isSome = true ∧
    (handle_parar_estudo s fim_estudo false).estadoFinal.ultimo_registro
      = s.ultimo_registro ∧
    ∃ r : NovoRegistro,
      (handle_parar_estudo s fim_estudo false).registro = some r := by
  have h : ¬ fim_estudo - s.inicio_estudo < DURACAO_MINIMA_SEGUNDOS :=
    not_lt.mpr hlongo
  simp [handle_parar_estudo, h]

/-- Witness for C6 (amended): concrete failing append on a 150 s session. -/
theorem parar_estudo_falha_desativa_witness :
    (handle_parar_estudo ⟨true, 0, "Law", none⟩ 150 false).estadoFinal.estudo_ativo
      = false ∧
    (handle_parar_estudo ⟨true, 0, "Law", none⟩ 150 false).retornado = none :=
  ⟨(parar_estudo_falha_desativa ⟨true, 0, "Law", none⟩ 150
      (by norm_num [DURACAO_MINIMA_SEGUNDOS])).1,
   (parar_estudo_falha_desativa ⟨true, 0, "Law", none⟩ 150
      (by norm_num [DURACAO_MINIMA_SEGUNDOS])).2.1⟩

/-- C8: the statistics of `display_analise_padroes` involve no division by
zero: the mean duration is 0 when there are no sessions, and the
sessions-per-day frequency is `sessionCount / distinctDays` when at least one
distinct day exists and 0 otherwise. -/
theorem stats_sem_divisao_por_zero (registros : List Registro) :
    (registros.length = 0 →
      (display_analise_stats registros).duracao_media = some 0) ∧
    (display_analise_stats registros).frequencia =
      (if 0 < diasUnicos registros then
        (registros.length : ℚ) / (diasUnicos registros : ℚ) else 0) := by
  constructor
  · intro h
    have hnil : registros = [] := List.length_eq_zero.mp h
    subst hnil
    simp [display_analise_stats]
  · rcases registros with _ | ⟨r, rs⟩
    · simp [display_analise_stats, diasUnicos]
    · simp only [display_analise_stats, List.length_cons]
      rw [if_pos (Nat.succ_pos _)]

/-- Witness for C8: with no records the mean is 0 and the frequency is 0. -/
theorem stats_sem_divisao_por_zero_witness :
    (display_analise_stats []).duracao_media = some 0 ∧
    (display_analise_stats []).frequencia =
      (if 0 < diasUnicos [] then
        (([] : List Registro).length : ℚ) / (diasUnicos [] : ℚ) else 0) :=
  ⟨(stats_sem_divisao_por_zero []).1 rfl, (stats_sem_divisao_por_zero []).2⟩

/-- Floor of a rational divided by a positive integer agrees with integer
division of its floor. -/
theorem floor_div_intCast (s : ℚ) (d : ℤ) (hd : 0 < d) :
    ⌊s / (d : ℚ)⌋ = ⌊s⌋ / d := by
  have hdq : (0 : ℚ) < (d : ℚ) := by exact_mod_cast hd
  have key : ∀ z : ℤ, z ≤ ⌊s / (d : ℚ)⌋ ↔ z ≤ ⌊s⌋ / d := by
    intro z
    rw [Int.le_floor, le_div_iff₀ hdq, Int.le_ediv_iff_mul_le hd, Int.le_floor]
    push_cast
    exact Iff.rfl
  exact le_antisymm ((key _).mp le_rfl) ((key _).mpr le_rfl)

/-- Truncation agrees with floor on non-negative rationals. -/
theorem pyInt_of_nonneg (x : ℚ) (hx : 0 ≤ x) : pyInt x = ⌊x⌋ := by
  simp [pyInt, hx]

/-- C10: for every non-negative number of seconds, `formatar_duracao` renders
`HH:MM:SS` with each component zero-padded to at least two digits (`pad2`),
minutes and seconds below 60, and the components reassembling to the input
truncated to whole seconds. -/
theorem formatar_duracao_hms (segundos : ℚ) (hpos : 0 ≤ segundos) :
    ∃ h m sec : ℕ, m < 60 ∧ sec < 60 ∧
      3600 * h + 60 * m + sec = (⌊segundos⌋).toNat ∧
      formatar_duracao segundos =
        pad2 (h : ℤ) ++ ":" ++ pad2 (m : ℤ) ++ ":" ++ pad2 (sec : ℤ) := by
  have hn0 : 0 ≤ ⌊segundos⌋ := Int.floor_nonneg.mpr hpos
  set n := ⌊segundos⌋ with hn
  have e1 : ⌊segundos / 3600⌋ = n / 3600 := by
    have h0 := floor_div_intCast segundos 3600 (by norm_num)
    have h1 : (((3600 : ℤ) : ℚ)) = (3600 : ℚ) := by norm_num
    rw [h1] at h0
    exact h0
  have e2 : ⌊segundos - 3600 * ((n / 3600 : ℤ) : ℚ)⌋ = n % 3600 := by
    have h1 : segundos - 3600 * ((n / 3600 : ℤ) : ℚ)
        = segundos - (((3600 * (n / 3600) : ℤ)) : ℚ) := by push_cast; ring
    rw [h1, Int.floor_sub_int, ← hn, Int.emod_def]
  have e3 : ⌊(segundos - 3600 * ((n / 3600 : ℤ) : ℚ)) / 60⌋ = n % 3600 / 60 := by
    have h0 := floor_div_intCast (segundos - 3600 * ((n / 3600 : ℤ) : ℚ)) 60
      (by norm_num)
    have h1 : (((60 : ℤ) : ℚ)) = (60 : ℚ) := by norm_num
    rw [h1] at h0
    rw [h0, e2]
  have e4 : pyInt ((segundos - 3600 * ((n / 3600 : ℤ) : ℚ))
      - 60 * ((n % 3600 / 60 : ℤ) : ℚ)) = n % 60 := by
    have hfl : ((n % 3600 / 60 : ℤ) : ℚ)
        ≤ (segundos - 3600 * ((n / 3600 : ℤ) : ℚ)) / 60 := by
      rw [← e3]; exact Int.floor_le _
    have hge : 0 ≤ (segundos - 3600 * ((n / 3600 : ℤ) : ℚ))
        - 60 * ((n % 3600 / 60 : ℤ) : ℚ) := by
      have h60 : (0 : ℚ) < 60 := by norm_num
      nlinarith [hfl]
    rw [pyInt_of_nonneg _ hge]
    have h1 : (segundos - 3600 * ((n / 3600 : ℤ) : ℚ))
          - 60 * ((n % 3600 / 60 : ℤ) : ℚ)
        = (segundos - 3600 * ((n / 3600 : ℤ) : ℚ))
          - (((60 * (n % 3600 / 60) : ℤ)) : ℚ) := by
      push_cast; ring
    rw [h1, Int.floor_sub_int, e2]
    omega
  refine ⟨(n / 3600).toNat, (n % 3600 / 60).toNat, (n % 60).toNat, ?_, ?_, ?_, ?_⟩
  · omega
  · omega
  · omega
  · have c1 : (((n / 3600).toNat : ℤ)) = n / 3600 := by omega
    have c2 : (((n % 3600 / 60).toNat : ℤ)) = n % 3600 / 60 := by omega
    have c3 : (((n % 60).toNat : ℤ)) = n % 60 := by omega
    simp only [formatar_duracao, c1, c2, c3, e1, e3, e4]

/-- Witness for C10: 3661 seconds decompose as one hour, one minute, one
second. -/
theorem formatar_duracao_hms_witness :
    ∃ h m sec : ℕ, m < 60 ∧ sec < 60 ∧
      3600 * h + 60 * m + sec = (⌊(3661 : ℚ)⌋).toNat ∧
      formatar_duracao 3661 =
        pad2 (h : ℤ) ++ ":" ++ pad2 (m : ℤ) ++ ":" ++ pad2 (sec : ℤ) :=
  formatar_duracao_hms 3661 (by norm_num)

/-- C7: in the per-subject aggregation, a record whose `Duração (min)` cell is
malformed (coerced to `NaN`) contributes exactly zero to its subject's sum —
replacing it by an explicit 0 leaves the whole summary unchanged — and an
empty record set yields an empty summary (`atualizar_resumo` clears the sheet
and returns an empty frame). Totality over every well-typed input is the
totality of the Lean functions themselves. -/
theorem resumo_malformado_zero (registros : List Registro) (r : Registro)
    (hmal : r.duracao = none) :
    resumo_totais (r :: registros)
      = resumo_totais (⟨r.dataDia, some 0, r.materia⟩ :: registros) ∧
    resumo_totais ([] : List Registro) = [] ∧
    atualizar_resumo ([] : List Registro) true = ([], false) := by
  refine ⟨?_, by simp [resumo_totais], rfl⟩
  have hsoma : ∀ k : String,
      somaDuracao ((r :: registros).filter fun x => decide (x.materia = k))
        = somaDuracao (((⟨r.dataDia, some 0, r.materia⟩ : Registro) :: registros).filter
            fun x => decide (x.materia = k)) := by
    intro k
    by_cases hk : r.materia = k
    · simp [List.filter_cons, hk, somaDuracao, hmal]
    · simp [List.filter_cons, hk, somaDuracao]
  simp only [resumo_totais, List.map_cons]
  rw [show (⟨r.dataDia, some 0, r.materia⟩ : Registro).materia = r.materia from rfl]
  congr 1
  funext k
  rw [hsoma k]

/-- Witness for C7: a lone record of subject `"Law"` with a malformed
duration aggregates exactly like a record of duration 0. -/
theorem resumo_malformado_zero_witness :
    resumo_totais [⟨none, none, "Law"⟩] = resumo_totais [⟨none, some 0, "Law"⟩] ∧
    resumo_totais ([] : List Registro) = [] ∧
    atualizar_resumo ([] : List Registro) true = ([], false) :=
  resumo_malformado_zero [] ⟨none, none, "Law"⟩ rfl

/-- C9: the per-subject aggregation is invariant under permutation of its
input: two record sequences forming the same multiset produce identical
summaries. -/
theorem resumo_perm_invariante (l1 l2 : List Registro) (hp : l1.Perm l2) :
    resumo_totais l1 = resumo_totais l2 := by
  have htrans : ∀ a b c : String, decide (a ≤ b) = true → decide (b ≤ c) = true →
      decide (a ≤ c) = true := by
    intro a b c h1 h2
    simp only [decide_eq_true_eq] at *
    exact le_trans h1 h2
  have htotal : ∀ a b : String, (decide (a ≤ b) || decide (b ≤ a)) = true := by
    intro a b
    simpa [Bool.or_eq_true, decide_eq_true_eq] using le_total a b
  have hsortd : ∀ l : List String,
      ((l.mergeSort fun a b => decide (a ≤ b)).Pairwise fun a b : String => a ≤ b) := by
    intro l
    have := List.sorted_mergeSort htrans htotal l
    exact this.imp fun h => by simpa using h
  have hkeys : ((l1.map fun r => r.materia).dedup).mergeSort (fun a b => decide (a ≤ b))
      = ((l2.map fun r => r.materia).dedup).mergeSort (fun a b => decide (a ≤ b)) := by
    haveI : IsAntisymm String (fun a b : String => a ≤ b) :=
      ⟨fun a b h1 h2 => le_antisymm h1 h2⟩
    apply List.eq_of_perm_of_sorted (r := fun a b : String => a ≤ b)
    · exact ((List.mergeSort_perm _ _).trans ((hp.map _).dedup)).trans
        (List.mergeSort_perm _ _).symm
    · exact hsortd _
    · exact hsortd _
  have hsoma : ∀ k : String,
      somaDuracao (l1.filter fun r => decide (r.materia = k))
        = somaDuracao (l2.filter fun r => decide (r.materia = k)) := by
    intro k
    exact ((hp.filter _).map _).sum_eq
  simp only [resumo_totais, hkeys, hsoma]

/-- Witness for C9: swapping two records leaves the summary unchanged. -/
theorem resumo_perm_invariante_witness :
    resumo_totais [⟨none, some 10, "Math"⟩, ⟨none, some 5, "Law"⟩]
      = resumo_totais [⟨none, some 5, "Law"⟩, ⟨none, some 10, "Math"⟩] :=
  resumo_perm_invariante _ _ (List.Perm.swap _ _ _)

/-- C4 counterexample: `Total (horas)` is rounded to 2 decimal places, not
the exact `totalMinutes / 60`. For one record of 1 minute the summary table —
of which every displayed table is a permutation — carries `horas = 0.02`,
whereas the claim's `totalMinutes / 60` is `1/60`. -/
theorem resumo_horas_arredondadas :
    resumo_totais [⟨none, some 1, "Law"⟩]
      = [{ materia := "Law", minutos := 1, horas := 1 / 50 }] ∧
    ((1 : ℚ) / 50) ≠ 1 / 60 := by
  constructor
  · have hfr : Int.fract ((5 : ℚ) / 3) = 2 / 3 := by
      rw [Int.fract]
      norm_num
    norm_num [resumo_totais, somaDuracao, round2, roundHalfEven, hfr]
  · norm_num

/-- C4 amended: every table the display can show — some permutation of the
`atualizar_resumo` summary that is descending in minutes, which is all
`sort_values('Duração (min)', ascending=False)` guarantees — groups records
by exact, case-sensitive subject equality (one row per distinct subject),
sums their (coerced) minutes, and derives `horas = round2 (minutos / 60)`,
rounded to two decimal places rather than the exact quotient. The relative
order of subjects with equal totals is left unspecified by the program. -/
theorem resumo_ordenacao_spec (registros : List Registro) (exibido : List Resumo)
    (hex : OrdenacaoExibida registros exibido) :
    (∀ x ∈ exibido,
      x.minutos = somaDuracao (registros.filter fun r => decide (r.materia = x.materia)) ∧
      x.horas = round2 (x.minutos / 60)) ∧
    (exibido.map fun x => x.materia).Perm
      ((registros.map fun r => r.materia).dedup) ∧
    exibido.Pairwise fun a b => b.minutos ≤ a.minutos := by
  refine ⟨?_, ?_, hex.2⟩
  · intro x hx
    have hx2 : x ∈ resumo_totais registros := hex.1.mem_iff.mp hx
    simp only [resumo_totais, List.mem_map] at hx2
    obtain ⟨k, -, rfl⟩ := hx2
    exact ⟨rfl, rfl⟩
  · have hperm1 : (exibido.map fun x => x.materia).Perm
        ((resumo_totais registros).map fun x => x.materia) := hex.1.map _
    have heq : ((resumo_totais registros).map fun x => x.materia)
        = ((registros.map fun r => r.materia).dedup).mergeSort
            fun a b => decide (a ≤ b) := by
      simp only [resumo_totais, List.map_map]
      exact List.map_id _
    refine hperm1.trans ?_
    rw [heq]
    exact List.mergeSort_perm _ _

/-- Witness for C4 (amended): the singleton summary of one 1-minute `"Law"`
record is itself a valid displayed table, and the theorem applied to it gives
the distinct-subject key set. -/
theorem resumo_ordenacao_spec_witness :
    OrdenacaoExibida [⟨none, some 1, "Law"⟩]
      [{ materia := "Law", minutos := 1, horas := 1 / 50 }] ∧
    (([{ materia := "Law", minutos := 1, horas := 1 / 50 }] : List Resumo).map
        fun x => x.materia).Perm
      (([(⟨none, some 1, "Law"⟩ : Registro)].map fun r => r.materia).dedup) := by
  have hval : resumo_totais [⟨none, some 1, "Law"⟩]
      = [{ materia := "Law", minutos := 1, horas := 1 / 50 }] := by
    have hfr : Int.fract ((5 : ℚ) / 3) = 2 / 3 := by
      rw [Int.fract]
      norm_num
    norm_num [resumo_totais, somaDuracao, round2, roundHalfEven, hfr]
  have hex : OrdenacaoExibida [⟨none, some 1, "Law"⟩]
      [{ materia := "Law", minutos := 1, horas := 1 / 50 }] := by
    refine ⟨?_, by simp⟩
    rw [hval]
  exact ⟨hex, (resumo_ordenacao_spec _ _ hex).2.1⟩

/-- C2 counterexample: `gerar_grafico_semanal` does not return seven weekday
entries for every input. On the empty input it returns `None` (no chart), and
a single Monday record inside the window yields exactly one entry — the six
weekdays without records are omitted, not zero-filled. -/
theorem grafico_semanal_nao_sete :
    gerar_grafico_semanal [] 0 = none ∧
    gerar_grafico_semanal [⟨some 4, some 20, "Law"⟩] (4 * 86400)
      = some [{ dia := "Segunda", minutos := 20, horas := 1 / 3 }] := by
  constructor
  · rfl
  · norm_num [gerar_grafico_semanal, registros_recentes, nomeDiaSemana,
      somaDuracao, ordem_dias_portugues]

/-- C2 amended: `gerar_grafico_semanal` returns `None` when the input is
empty or no record falls inside the trailing 30-day window; otherwise it
returns one entry per distinct weekday actually present among the windowed
records — weekdays with no records are omitted — ordered Monday→Sunday, each
entry summing the (coerced) minutes of its weekday with `horas = minutos/60`. -/
theorem grafico_semanal_spec (registros : List Registro) (agora : ℚ) :
    (registros = [] → gerar_grafico_semanal registros agora = none) ∧
    (registros_recentes registros agora = [] →
      gerar_grafico_semanal registros agora = none) ∧
    (registros_recentes registros agora ≠ [] →
      ∃ linhas, gerar_grafico_semanal registros agora = some linhas ∧
        (linhas.map fun x => x.dia).Perm
          (((registros_recentes registros agora).map fun r =>
            nomeDiaSemana (r.dataDia.getD 0)).dedup) ∧
        linhas.Pairwise (fun a b => ordemDia a.dia ≤ ordemDia b.dia) ∧
        ∀ x ∈ linhas,
          x.minutos = somaDuracao ((registros_recentes registros agora).filter
            fun r => decide (nomeDiaSemana (r.dataDia.getD 0) = x.dia)) ∧
          x.horas = x.minutos / 60) := by
  refine ⟨?_, ?_, ?_⟩
  · intro h
    subst h
    rfl
  · intro h
    rcases registros with _ | ⟨r, rs⟩
    · rfl
    · simp only [gerar_grafico_semanal, h, List.isEmpty_cons, List.isEmpty_nil]
      rfl
  · intro h
    have hreg : registros ≠ [] := by
      intro hnil
      apply h
      rw [hnil]
      rfl
    have h1 : registros.isEmpty = false := by
      simpa [List.isEmpty_iff] using hreg
    have h2 : (registros_recentes registros agora).isEmpty = false := by
      simpa [List.isEmpty_iff] using h
    simp only [gerar_grafico_semanal, h1, h2, Bool.false_eq_true, if_false]
    refine ⟨_, rfl, ?_, ?_, ?_⟩
    · have hperm1 := (List.mergeSort_perm
        (((((registros_recentes registros agora).map fun r =>
          nomeDiaSemana (r.dataDia.getD 0)).dedup).mergeSort
            fun a b => decide (a ≤ b)).map fun k =>
              { dia := k,
                minutos := somaDuracao ((registros_recentes registros agora).filter
                  fun r => decide (nomeDiaSemana (r.dataDia.getD 0) = k)),
                horas := somaDuracao ((registros_recentes registros agora).filter
                  fun r => decide (nomeDiaSemana (r.dataDia.getD 0) = k)) / 60
                : LinhaSemana })
        (fun a b => decide (ordemDia a.dia ≤ ordemDia b.dia))).map
          fun x : LinhaSemana => x.dia
      refine hperm1.trans ?_
      rw [List.map_map]
      have hid : ((fun x : LinhaSemana => x.dia) ∘ fun k =>
          ({ dia := k,
             minutos := somaDuracao ((registros_recentes registros agora).filter
               fun r => decide (nomeDiaSemana (r.dataDia.getD 0) = k)),
             horas := somaDuracao ((registros_recentes registros agora).filter
               fun r => decide (nomeDiaSemana (r.dataDia.getD 0) = k)) / 60
           : LinhaSemana})) = id := by
        funext k
        rfl
      rw [hid, List.map_id]
      exact List.mergeSort_perm _ _
    · have htrans : ∀ a b c : LinhaSemana,
          decide (ordemDia a.dia ≤ ordemDia b.dia) = true →
          decide (ordemDia b.dia ≤ ordemDia c.dia) = true →
          decide (ordemDia a.dia ≤ ordemDia c.dia) = true := by
        intro a b c hab hbc
        simp only [decide_eq_true_eq] at *
        exact le_trans hab hbc
      have htotal : ∀ a b : LinhaSemana,
          (decide (ordemDia a.dia ≤ ordemDia b.dia)
            || decide (ordemDia b.dia ≤ ordemDia a.dia)) = true := by
        intro a b
        simpa [Bool.or_eq_true, decide_eq_true_eq] using
          le_total (ordemDia a.dia) (ordemDia b.dia)
      have hsort := List.sorted_mergeSort htrans htotal
        ((((registros_recentes registros agora).map fun r =>
          nomeDiaSemana (r.dataDia.getD 0)).dedup).mergeSort
            (fun a b => decide (a ≤ b)) |>.map fun k =>
              { dia := k,
                minutos := somaDuracao ((registros_recentes registros agora).filter
                  fun r => decide (nomeDiaSemana (r.dataDia.getD 0) = k)),
                horas := somaDuracao ((registros_recentes registros agora).filter
                  fun r => decide (nomeDiaSemana (r.dataDia.getD 0) = k)) / 60
                : LinhaSemana })
      exact hsort.imp fun hab => by simpa using hab
    · intro x hx
      have hx2 := List.mem_mergeSort.mp hx
      simp only [List.mem_map] at hx2
      obtain ⟨k, -, rfl⟩ := hx2
      exact ⟨rfl, rfl⟩

/-- Witness for C2 (amended): the empty input yields `None`; one windowed
Monday record yields a chart. -/
theorem grafico_semanal_spec_witness :
    gerar_grafico_semanal [] 0 = none ∧
    (gerar_grafico_semanal [⟨some 4, some 20, "Law"⟩] (4 * 86400)).isSome = true := by
  constructor
  · exact (grafico_semanal_spec [] 0).1 rfl
  · obtain ⟨linhas, hl, -⟩ :=
      (grafico_semanal_spec [⟨some 4, some 20, "Law"⟩] (4 * 86400)).2.2
        (by norm_num [registros_recentes])
    rw [hl]
    rfl
